import Mathlib

/-!
Shallow embedding of `src/smartline-app/inspect_images.py`.

The script iterates over a hardcoded list of five filenames, joins each with a
hardcoded Windows base directory, checks `os.path.exists`, and if the path
exists it opens the file with `PIL.Image.open` inside a `try` block, prints a
mode/size line, samples the four corner pixels with `img.getpixel`, and prints
them; any `Exception` raised inside the `try` block is caught and printed as
an error line. A missing path prints a "not found" line.

The filesystem is modelled as an association list from full path strings to
entries; every observable effect of the script (existence check, file open,
pixel read, console print) is recorded as an `Event`, and the run is the
concatenation of the per-file event traces. Console output is the sequence
of `printLine` events.
-/

set_option autoImplicit false

namespace InspectImages

/-- A pixel value as returned by `PIL.Image.getpixel`: a bare integer for
single-channel modes such as `L` or `P`, or a tuple of channel values for
multi-channel modes such as `RGB` or `RGBA`. -/
inductive Pixel where
  | intVal (v : Nat)
  | tupleVal (vs : List Nat)
deriving DecidableEq

/-- Python `repr` of a pixel value, as it appears inside the printed corner
list: a bare integer prints as itself, a tuple prints parenthesised with
", " separators (a one-element tuple prints with a trailing comma). -/
def pyReprPixel : Pixel → String
  | .intVal v => toString v
  | .tupleVal [v] => "(" ++ toString v ++ ",)"
  | .tupleVal vs => "(" ++ String.intercalate ", " (vs.map toString) ++ ")"

/-- A successfully opened image (`PIL.Image.open` parsed the header): its
color mode string, pixel width and height, and the result of lazily loading
the pixel data. `pixels` is `Except.error e` when the first pixel access
(`getpixel` triggers `Image.load`) raises an `Exception` with text `e`, and
otherwise a total grid giving the pixel value at column `x`, row `y`. -/
structure Img where
  mode : String
  width : Nat
  height : Nat
  pixels : Except String (Nat → Nat → Pixel)

/-- What the filesystem holds at a given full path. `file d` is a regular
file whose decode attempt by `PIL.Image.open` yields `d` (an image, or the
text of the raised `Exception`); `dir e` is an existing non-file path such
as a directory, for which `Image.open` raises an `Exception` with text `e`;
`unreadable` is a path on which `os.stat` itself raises `OSError`
(for example because the base directory is unreadable). -/
inductive Entry where
  | file (decode : Except String Img)
  | dir (err : String)
  | unreadable

/-- The filesystem: a finite map from full path strings to entries. A path
not in the list is absent from the filesystem. -/
abbrev Fs := List (String × Entry)

/-- Look up the entry at a path. -/
def findEntry (fs : Fs) (p : String) : Option Entry :=
  (fs.find? (fun kv => kv.1 == p)).map (fun kv => kv.2)

/-- Line 10: `os.path.exists(path)`. CPython's `genericpath.exists` calls
`os.stat` and returns `False` on any `OSError` (or `ValueError`), so a path
whose `stat` fails — including every path under an unreadable base
directory — reports as non-existent rather than raising. -/
def os_path_exists (fs : Fs) (p : String) : Bool :=
  match findEntry fs p with
  | none => false
  | some Entry.unreadable => false
  | some _ => true

/-- Line 9: `os.path.join(base_path, f)`. The base path is a Windows drive
path (the script targets `ntpath`), and the listed names are plain relative
filenames, so the join appends a single backslash separator. -/
def os_path_join (base f : String) : String := base ++ "\\" ++ f

/-- Line 5: the hardcoded filename list. -/
def files : List String :=
  ["saver.webp", "comfort.webp", "vip.webp", "taxi.webp", "scooter.webp"]

/-- Line 6: the hardcoded base directory (raw string in the source). -/
def base_path : String := "e:\\sm-new\\smart-v2\\smartline-app\\src\\assets\\images"

/-- Line 12: `Image.open(path)`. Decoding a regular file yields its stored
decode result; opening an existing non-file path raises; the remaining
cases cannot be reached by the script because `os.path.exists` has already
returned `True` for the path, but are modelled as the errors `open` would
raise there. -/
def image_open (fs : Fs) (p : String) : Except String Img :=
  match findEntry fs p with
  | some (Entry.file d) => d
  | some (Entry.dir e) => Except.error e
  | some Entry.unreadable => Except.error "Permission denied"
  | none => Except.error "No such file or directory"

/-- Lines 16-19: `img.getpixel((x, y))`. The first pixel access forces
`Image.load`; if loading the pixel data raises, every access raises that
error, otherwise the access returns the grid value at `(x, y)`. -/
def getpixel (img : Img) (xy : Nat × Nat) : Except String Pixel :=
  match img.pixels with
  | Except.ok grid => Except.ok (grid xy.1 xy.2)
  | Except.error e => Except.error e

/-- One observable effect of the script. `writeFs` never occurs in the
translated code; it is part of the effect vocabulary so that the absence of
filesystem writes is a statement about the trace, not about the type. -/
inductive Event where
  | checkExists (path : String)
  | openRead (path : String)
  | readPixel (x y : Nat)
  | writeFs (path : String)
  | printLine (s : String)
deriving DecidableEq

/-- Whether an event mutates the filesystem. -/
def Event.isWrite : Event → Bool
  | Event.writeFs _ => true
  | _ => false

/-- Line 25: the message printed on the `else` branch of the existence
check: `print(f"{f} not found")`. -/
def notFoundLine (f : String) : String := f ++ " not found"

/-- Line 13: `print(f"{f}: Mode={img.mode}, Size={img.size}")`; `img.size`
is the Python tuple `(width, height)`, printed with a comma and space. -/
def modeSizeLine (f : String) (img : Img) : String :=
  f ++ ": Mode=" ++ img.mode ++ ", Size=(" ++ toString img.width ++ ", "
    ++ toString img.height ++ ")"

/-- Line 23: `print(f"  Error reading {f}: {e}")` — note the two leading
spaces in the source f-string. -/
def errorLine (f e : String) : String := "  Error reading " ++ f ++ ": " ++ e

/-- Line 21: `print(f"  Corners: {corners}")`; `corners` is a Python list,
printed bracketed with ", " separators around the repr of each pixel. -/
def cornersLine (cs : List Pixel) : String :=
  "  Corners: [" ++ String.intercalate ", " (cs.map pyReprPixel) ++ "]"

/-- Lines 15-20: the four corner coordinates in source order — `(0, 0)`,
`(img.width-1, 0)`, `(0, img.height-1)`, `(img.width-1, img.height-1)`,
that is top-left, top-right, bottom-left, bottom-right. -/
def cornerCoords (img : Img) : List (Nat × Nat) :=
  [(0, 0), (img.width - 1, 0), (0, img.height - 1),
    (img.width - 1, img.height - 1)]

/-- Evaluate the `corners` list literal: `getpixel` is attempted at each
coordinate from left to right, each attempt is recorded as a `readPixel`
event, and the first raised error aborts the remaining accesses (as a
raised exception aborts the Python list literal). -/
def readCorners (img : Img) : List (Nat × Nat) → List Event × Except String (List Pixel)
  | [] => ([], Except.ok [])
  | c :: rest =>
    match getpixel img c with
    | Except.error e => ([Event.readPixel c.1 c.2], Except.error e)
    | Except.ok v =>
      (Event.readPixel c.1 c.2 :: (readCorners img rest).1,
        (readCorners img rest).2.map (fun vs => v :: vs))

/-- Lines 9-25: the body of the `for` loop for one filename `f`: join the
path, check existence; on the `else` branch print the not-found line; on
the `then` branch open the image inside `try` — a decode error prints the
error line, and on success the mode/size line is printed, the corners are
sampled, and either the corners line or (if a pixel access raised) the
error line is printed. The result is the iteration's event trace. -/
def processFile (fs : Fs) (f : String) : List Event :=
  let path := os_path_join base_path f
  Event.checkExists path ::
    (if os_path_exists fs path then
      Event.openRead path ::
        (match image_open fs path with
        | Except.error e => [Event.printLine (errorLine f e)]
        | Except.ok img =>
          Event.printLine (modeSizeLine f img) ::
            ((readCorners img (cornerCoords img)).1 ++
              (match (readCorners img (cornerCoords img)).2 with
              | Except.error e => [Event.printLine (errorLine f e)]
              | Except.ok cs => [Event.printLine (cornersLine cs)]))
        )
    else [Event.printLine (notFoundLine f)])

/-- Line 8: the whole run — the loop over `files`, concatenating the
per-iteration event traces. -/
def runTrace (fs : Fs) : List Event :=
  (files.map (processFile fs)).flatten

/-- The console output carried by an event trace: the printed lines, in
order. -/
def outputOf (evs : List Event) : List String :=
  evs.filterMap (fun ev =>
    match ev with
    | Event.printLine s => some s
    | _ => none)

/-- The console output of the whole run. -/
def runOutput (fs : Fs) : List String := outputOf (runTrace fs)

/-- The console output produced by the iteration for one filename. -/
def fileOutput (fs : Fs) (f : String) : List String := outputOf (processFile fs f)

/-! Demonstration filesystems used by witnesses and counterexamples. -/

/-- A concrete pixel grid for a small grayscale image: the value at column
`x`, row `y` is `x + 10 * y`. -/
def demoGrid : Nat → Nat → Pixel := fun x y => Pixel.intVal (x + 10 * y)

/-- A concrete 3x2 grayscale image whose pixel data loads successfully. -/
def demoImg : Img := { mode := "L", width := 3, height := 2, pixels := Except.ok demoGrid }

/-- A concrete 48x48 RGBA image whose header parses but whose pixel data
fails to load. -/
def badImg : Img :=
  { mode := "RGBA", width := 48, height := 48
    pixels := Except.error "broken data stream when reading image file" }

/-- A filesystem holding one valid image at the first listed path. -/
def demoFs1 : Fs := [(os_path_join base_path "saver.webp", Entry.file (Except.ok demoImg))]

/-- A filesystem where `comfort.webp` exists but fails to decode and
`vip.webp` decodes but its pixel data fails to load. -/
def demoFs2 : Fs :=
  [(os_path_join base_path "comfort.webp",
      Entry.file (Except.error "cannot identify image file")),
    (os_path_join base_path "vip.webp", Entry.file (Except.ok badImg))]

/-- A filesystem where `scooter.webp` names an existing directory rather
than a regular file. -/
def demoFs3 : Fs := [(os_path_join base_path "scooter.webp", Entry.dir "Permission denied")]

/-- A filesystem modelling an unreadable base directory: every listed path
physically exists but `os.stat` on it raises `OSError`. -/
def demoFsUnreadable : Fs :=
  [(os_path_join base_path "saver.webp", Entry.unreadable),
    (os_path_join base_path "comfort.webp", Entry.unreadable),
    (os_path_join base_path "vip.webp", Entry.unreadable),
    (os_path_join base_path "taxi.webp", Entry.unreadable),
    (os_path_join base_path "scooter.webp", Entry.unreadable)]

/-! Helper lemmas shared by the claim theorems. -/

theorem outputOf_append (a b : List Event) : outputOf (a ++ b) = outputOf a ++ outputOf b := by
  simp [outputOf]

theorem findEntry_of_image_open_ok (fs : Fs) (p : String) (img : Img)
    (hopen : image_open fs p = Except.ok img) :
    findEntry fs p = some (Entry.file (Except.ok img)) := by
  unfold image_open at hopen
  cases hf : findEntry fs p with
  | none => rw [hf] at hopen; cases hopen
  | some entry =>
    cases entry with
    | file d => rw [hf] at hopen; simp at hopen; rw [hopen]
    | dir e => rw [hf] at hopen; cases hopen
    | unreadable => rw [hf] at hopen; cases hopen

theorem os_path_exists_of_image_open_ok (fs : Fs) (p : String) (img : Img)
    (hopen : image_open fs p = Except.ok img) :
    os_path_exists fs p = true := by
  unfold os_path_exists
  rw [findEntry_of_image_open_ok fs p img hopen]

theorem os_path_exists_of_findEntry_unreadable (fs : Fs) (p : String)
    (h : findEntry fs p = some Entry.unreadable) :
    os_path_exists fs p = false := by
  unfold os_path_exists
  rw [h]

/-- C1: whenever a listed file opens successfully as an image and its four
corner pixels read successfully, the iteration prints the mode/size line
followed by the corners line rendering exactly the four directly read
pixel values in the order top-left, top-right, bottom-left, bottom-right,
that is the values of `getpixel` at `(0,0)`, `(width-1,0)`,
`(0,height-1)`, `(width-1,height-1)`. -/
theorem C1_corners_match_getpixel (fs : Fs) (f : String) (img : Img)
    (c1 c2 c3 c4 : Pixel)
    (hopen : image_open fs (os_path_join base_path f) = Except.ok img)
    (h1 : getpixel img (0, 0) = Except.ok c1)
    (h2 : getpixel img (img.width - 1, 0) = Except.ok c2)
    (h3 : getpixel img (0, img.height - 1) = Except.ok c3)
    (h4 : getpixel img (img.width - 1, img.height - 1) = Except.ok c4) :
    fileOutput fs f = [modeSizeLine f img, cornersLine [c1, c2, c3, c4]] := by
  have hex := os_path_exists_of_image_open_ok fs (os_path_join base_path f) img hopen
  simp [fileOutput, processFile, outputOf, hex, hopen, readCorners, cornerCoords,
    h1, h2, h3, h4, Except.map, -Prod.mk_zero_zero]

/-- Witness for C1 at a concrete filesystem holding a 3x2 grayscale image:
the corner values 0, 2, 10, 12 are exactly the direct reads of the grid. -/
theorem C1_corners_match_getpixel_witness :
    fileOutput demoFs1 "saver.webp" =
      [modeSizeLine "saver.webp" demoImg,
        cornersLine [Pixel.intVal 0, Pixel.intVal 2, Pixel.intVal 10, Pixel.intVal 12]] :=
  C1_corners_match_getpixel demoFs1 "saver.webp" demoImg
    (Pixel.intVal 0) (Pixel.intVal 2) (Pixel.intVal 10) (Pixel.intVal 12)
    rfl rfl rfl rfl rfl

theorem os_path_exists_of_findEntry_file (fs : Fs) (p : String) (d : Except String Img)
    (h : findEntry fs p = some (Entry.file d)) : os_path_exists fs p = true := by
  unfold os_path_exists
  rw [h]

theorem image_open_of_findEntry_file (fs : Fs) (p : String) (d : Except String Img)
    (h : findEntry fs p = some (Entry.file d)) : image_open fs p = d := by
  unfold image_open
  rw [h]

theorem fileOutput_decode_error (fs : Fs) (f e : String)
    (hfind : findEntry fs (os_path_join base_path f) = some (Entry.file (Except.error e))) :
    fileOutput fs f = [errorLine f e] := by
  have hex := os_path_exists_of_findEntry_file fs _ _ hfind
  have hopen := image_open_of_findEntry_file fs _ _ hfind
  simp [fileOutput, processFile, outputOf, hex, hopen]

theorem fileOutput_pixel_error (fs : Fs) (f e : String) (img : Img)
    (hopen : image_open fs (os_path_join base_path f) = Except.ok img)
    (hpx : img.pixels = Except.error e) :
    fileOutput fs f = [modeSizeLine f img, errorLine f e] := by
  have hex := os_path_exists_of_image_open_ok fs (os_path_join base_path f) img hopen
  have hg : getpixel img (0, 0) = Except.error e := by simp [getpixel, hpx]
  simp [fileOutput, processFile, outputOf, hex, hopen, readCorners, cornerCoords, hg,
    -Prod.mk_zero_zero]

theorem outputOf_flatten (l : List (List Event)) :
    outputOf l.flatten = (l.map outputOf).flatten := by
  induction l with
  | nil => rfl
  | cons a t ih => simp [outputOf_append, ih]

theorem runOutput_eq_flatten (fs : Fs) :
    runOutput fs = (files.map (fileOutput fs)).flatten := by
  unfold runOutput runTrace
  rw [outputOf_flatten, List.map_map]
  rfl

theorem fileOutput_ne_nil (fs : Fs) (f : String) : fileOutput fs f ≠ [] := by
  unfold fileOutput processFile
  dsimp only
  split
  · cases hopen : image_open fs (os_path_join base_path f) with
    | error e => simp [hopen, outputOf]
    | ok img => simp [hopen, outputOf]
  · simp [outputOf]

theorem flatten_block {α β : Type} (g : α → List β) (l : List α) (a : α) (ha : a ∈ l) :
    ∃ pre post, (l.map g).flatten = pre ++ g a ++ post := by
  induction l with
  | nil => cases ha
  | cons x xs ih =>
    rcases List.mem_cons.mp ha with h | h
    · subst h
      exact ⟨[], (xs.map g).flatten, by simp⟩
    · rcases ih h with ⟨pre, post, hp⟩
      exact ⟨g x ++ pre, post, by simp [hp]⟩

theorem flatten_map_singleton {α β : Type} (g : α → List β) (h : α → β) (l : List α)
    (hg : ∀ a ∈ l, g a = [h a]) : (l.map g).flatten = l.map h := by
  induction l with
  | nil => rfl
  | cons x xs ih =>
    simp only [List.map_cons, List.flatten_cons, hg x (List.mem_cons_self x xs)]
    rw [ih (fun a ha => hg a (List.mem_cons_of_mem x ha))]
    rfl

theorem readCorners_no_write (img : Img) (cs : List (Nat × Nat)) :
    ∀ ev ∈ (readCorners img cs).1, ev.isWrite = false := by
  induction cs with
  | nil => intro ev h; cases h
  | cons c rest ih =>
    intro ev h
    unfold readCorners at h
    cases hg : getpixel img c with
    | error e =>
      simp only [hg] at h
      simp at h
      subst h
      rfl
    | ok v =>
      simp only [hg] at h
      rcases List.mem_cons.mp h with rfl | hm
      · rfl
      · exact ih ev hm

theorem processFile_no_write (fs : Fs) (f : String) :
    ∀ ev ∈ processFile fs f, ev.isWrite = false := by
  intro ev h
  unfold processFile at h
  dsimp only at h
  rcases List.mem_cons.mp h with rfl | h
  · rfl
  split at h
  · cases hopen : image_open fs (os_path_join base_path f) with
    | error e =>
      simp only [hopen] at h
      rcases List.mem_cons.mp h with rfl | h
      · rfl
      · simp at h; subst h; rfl
    | ok img =>
      simp only [hopen] at h
      rcases List.mem_cons.mp h with rfl | h
      · rfl
      rcases List.mem_cons.mp h with rfl | h
      · rfl
      rcases List.mem_append.mp h with h | h
      · exact readCorners_no_write img (cornerCoords img) ev h
      · cases hr : (readCorners img (cornerCoords img)).2 with
        | error e => simp only [hr] at h; simp at h; subst h; rfl
        | ok cs => simp only [hr] at h; simp at h; subst h; rfl
  · simp at h
    subst h
    rfl

/-- C2 counterexample: the source prints the error line with two leading
spaces (`print(f"  Error reading {f}: {e}")`), so the per-file output is
never exactly the string `Error reading <filename>: <error text>`; and
when the decode succeeded but the pixel read failed, the mode/size line
precedes the error line, so the error line is not the only output. -/
theorem C2_error_line_exact_counterexample :
    fileOutput demoFs2 "comfort.webp" =
      ["  Error reading comfort.webp: cannot identify image file"] ∧
    fileOutput demoFs2 "comfort.webp" ≠
      ["Error reading comfort.webp: cannot identify image file"] ∧
    fileOutput demoFs2 "vip.webp" =
      ["vip.webp: Mode=RGBA, Size=(48, 48)",
        "  Error reading vip.webp: broken data stream when reading image file"] ∧
    fileOutput demoFs2 "vip.webp" ≠
      ["Error reading vip.webp: broken data stream when reading image file"] :=
  ⟨rfl, by decide, rfl, by decide⟩

/-- C2 (amended): for a file that exists but fails to decode, the printed
output for that file is exactly the single line
`"  Error reading <filename>: <error text>"` — with two leading spaces; for
a file that decodes but whose pixel read fails, that error line is
preceded by the mode/size line; in both cases the run continues, every
listed file contributing its own output block. -/
theorem C2_error_line_amended (fs : Fs) (f e : String) (img : Img) :
    (findEntry fs (os_path_join base_path f) = some (Entry.file (Except.error e)) →
      fileOutput fs f = [errorLine f e]) ∧
    (image_open fs (os_path_join base_path f) = Except.ok img →
      img.pixels = Except.error e →
      fileOutput fs f = [modeSizeLine f img, errorLine f e]) ∧
    runOutput fs = (files.map (fileOutput fs)).flatten :=
  ⟨fun hfind => fileOutput_decode_error fs f e hfind,
    fun hopen hpx => fileOutput_pixel_error fs f e img hopen hpx,
    runOutput_eq_flatten fs⟩

/-- Witness for the amended C2 at a concrete filesystem: a decode failure
prints only the two-space error line, and a pixel-load failure prints the
mode/size line and then the error line. -/
theorem C2_error_line_amended_witness :
    fileOutput demoFs2 "comfort.webp" =
      [errorLine "comfort.webp" "cannot identify image file"] ∧
    fileOutput demoFs2 "vip.webp" =
      [modeSizeLine "vip.webp" badImg,
        errorLine "vip.webp" "broken data stream when reading image file"] :=
  ⟨(C2_error_line_amended demoFs2 "comfort.webp" "cannot identify image file" badImg).1 rfl,
    (C2_error_line_amended demoFs2 "vip.webp"
        "broken data stream when reading image file" badImg).2.1 rfl rfl⟩

/-- C3: when the joined path does not exist, the iteration's whole trace is
the existence check followed by the not-found print — so the output is
exactly `"<filename> not found"`, no open (decode attempt) occurs, and no
pixel (corner sampling) read occurs. -/
theorem C3_missing_file_not_found (fs : Fs) (f : String)
    (h : os_path_exists fs (os_path_join base_path f) = false) :
    processFile fs f =
      [Event.checkExists (os_path_join base_path f), Event.printLine (notFoundLine f)] ∧
    fileOutput fs f = [notFoundLine f] ∧
    (∀ p, Event.openRead p ∉ processFile fs f) ∧
    (∀ x y, Event.readPixel x y ∉ processFile fs f) := by
  have h1 : processFile fs f =
      [Event.checkExists (os_path_join base_path f), Event.printLine (notFoundLine f)] := by
    simp [processFile, h]
  refine ⟨h1, ?_, ?_, ?_⟩
  · simp [fileOutput, h1, outputOf]
  · intro p
    simp [h1]
  · intro x y
    simp [h1]

/-- Witness for C3 on the empty filesystem: the first listed file is
missing and its block is exactly the not-found line. -/
theorem C3_missing_file_not_found_witness :
    processFile ([] : Fs) "saver.webp" =
      [Event.checkExists (os_path_join base_path "saver.webp"),
        Event.printLine (notFoundLine "saver.webp")] ∧
    fileOutput ([] : Fs) "saver.webp" = [notFoundLine "saver.webp"] :=
  ⟨(C3_missing_file_not_found [] "saver.webp" rfl).1,
    (C3_missing_file_not_found [] "saver.webp" rfl).2.1⟩

/-- C4: the run processes all five listed filenames whatever each file's
outcome: the list has five entries, every listed file's output block is
nonempty, and that block occurs inside the run's output. -/
theorem C4_all_files_processed (fs : Fs) (f : String) (hf : f ∈ files) :
    files.length = 5 ∧
    fileOutput fs f ≠ [] ∧
    ∃ pre post, runOutput fs = pre ++ fileOutput fs f ++ post := by
  refine ⟨rfl, fileOutput_ne_nil fs f, ?_⟩
  rw [runOutput_eq_flatten]
  exact flatten_block (fileOutput fs) files f hf

/-- Witness for C4 on the empty filesystem at the fourth listed file. -/
theorem C4_all_files_processed_witness :
    files.length = 5 ∧
    fileOutput ([] : Fs) "taxi.webp" ≠ [] ∧
    ∃ pre post, runOutput ([] : Fs) = pre ++ fileOutput ([] : Fs) "taxi.webp" ++ post :=
  C4_all_files_processed [] "taxi.webp" (by decide)

/-- C5: the per-filename output blocks appear in exactly the declared order
of the hardcoded filename list. -/
theorem C5_output_order (fs : Fs) :
    files = ["saver.webp", "comfort.webp", "vip.webp", "taxi.webp", "scooter.webp"] ∧
    runOutput fs =
      fileOutput fs "saver.webp" ++ fileOutput fs "comfort.webp" ++ fileOutput fs "vip.webp"
        ++ fileOutput fs "taxi.webp" ++ fileOutput fs "scooter.webp" := by
  refine ⟨rfl, ?_⟩
  rw [runOutput_eq_flatten]
  simp [files]

/-- C6 counterexample: on a filesystem where every listed path exists but
is unreadable (modelling an unreadable base directory), the run does not
terminate with an uncaught failure — `os.path.exists` swallows the `stat`
error and returns `False`, so the run completes normally, printing the
not-found line for all five files. -/
theorem C6_unreadable_base_counterexample :
    findEntry demoFsUnreadable (os_path_join base_path "saver.webp") = some Entry.unreadable ∧
    findEntry demoFsUnreadable (os_path_join base_path "comfort.webp") = some Entry.unreadable ∧
    findEntry demoFsUnreadable (os_path_join base_path "vip.webp") = some Entry.unreadable ∧
    findEntry demoFsUnreadable (os_path_join base_path "taxi.webp") = some Entry.unreadable ∧
    findEntry demoFsUnreadable (os_path_join base_path "scooter.webp") = some Entry.unreadable ∧
    runOutput demoFsUnreadable =
      ["saver.webp not found", "comfort.webp not found", "vip.webp not found",
        "taxi.webp not found", "scooter.webp not found"] :=
  ⟨rfl, rfl, rfl, rfl, rfl, rfl⟩

/-- C6 (amended): an unreadable base directory is not a fatal path:
`os.path.exists` returns `False` when `os.stat` raises, so every listed
file is reported as `"<filename> not found"` and the run completes over
the whole list. -/
theorem C6_unreadable_base_amended (fs : Fs)
    (h : ∀ f ∈ files, findEntry fs (os_path_join base_path f) = some Entry.unreadable) :
    runOutput fs = files.map notFoundLine := by
  rw [runOutput_eq_flatten]
  refine flatten_map_singleton (fileOutput fs) notFoundLine files ?_
  intro f hf
  have hex := os_path_exists_of_findEntry_unreadable fs _ (h f hf)
  simp [fileOutput, processFile, hex, outputOf]

/-- Witness for the amended C6 at the concrete all-unreadable filesystem. -/
theorem C6_unreadable_base_amended_witness :
    runOutput demoFsUnreadable = files.map notFoundLine :=
  C6_unreadable_base_amended demoFsUnreadable
    (by
      intro f hf
      simp only [files, List.mem_cons, List.not_mem_nil, or_false] at hf
      rcases hf with rfl | rfl | rfl | rfl | rfl <;> rfl)

/-- C8: the run performs no filesystem write: every event in the run's
trace — existence checks, opens for reading, pixel reads, prints — is a
non-write event, for every input filesystem state. -/
theorem C8_no_filesystem_writes (fs : Fs) :
    ((runTrace fs).all fun ev => !ev.isWrite) = true := by
  refine List.all_eq_true.mpr ?_
  intro ev hev
  have hw : ev.isWrite = false := by
    rw [runTrace] at hev
    rcases List.mem_flatten.mp hev with ⟨l, hl, hevl⟩
    rcases List.mem_map.mp hl with ⟨f, hf, rfl⟩
    exact processFile_no_write fs f ev hevl
  simp [hw]

/-- C9: when the image opens but the corner-pixel read raises, the
mode/size line has already been printed before the error line: the
per-file output is the mode/size line followed by the error line, so the
error report is not the only output for such a file. -/
theorem C9_mode_line_precedes_error (fs : Fs) (f e : String) (img : Img)
    (hopen : image_open fs (os_path_join base_path f) = Except.ok img)
    (hpx : img.pixels = Except.error e) :
    fileOutput fs f = [modeSizeLine f img, errorLine f e] ∧
    fileOutput fs f ≠ [errorLine f e] := by
  have h := fileOutput_pixel_error fs f e img hopen hpx
  refine ⟨h, ?_⟩
  rw [h]
  simp

/-- Witness for C9 at a concrete filesystem whose `vip.webp` decodes but
fails to load its pixel data. -/
theorem C9_mode_line_precedes_error_witness :
    fileOutput demoFs2 "vip.webp" =
      [modeSizeLine "vip.webp" badImg,
        errorLine "vip.webp" "broken data stream when reading image file"] ∧
    fileOutput demoFs2 "vip.webp" ≠
      [errorLine "vip.webp" "broken data stream when reading image file"] :=
  C9_mode_line_precedes_error demoFs2 "vip.webp"
    "broken data stream when reading image file" badImg rfl rfl

/-- C10: the existence check accepts any existing path, so a directory (or
other non-file) at a listed path takes the decode branch: the trace shows
the open attempt, and the printed block is the error line, never the
not-found line. -/
theorem C10_directory_takes_decode_branch (fs : Fs) (f e : String)
    (hfind : findEntry fs (os_path_join base_path f) = some (Entry.dir e)) :
    processFile fs f =
      [Event.checkExists (os_path_join base_path f),
        Event.openRead (os_path_join base_path f),
        Event.printLine (errorLine f e)] ∧
    fileOutput fs f = [errorLine f e] ∧
    notFoundLine f ∉ fileOutput fs f := by
  have hex : os_path_exists fs (os_path_join base_path f) = true := by
    unfold os_path_exists
    rw [hfind]
  have hopen : image_open fs (os_path_join base_path f) = Except.error e := by
    unfold image_open
    rw [hfind]
  have h1 : processFile fs f =
      [Event.checkExists (os_path_join base_path f),
        Event.openRead (os_path_join base_path f),
        Event.printLine (errorLine f e)] := by
    simp [processFile, hex, hopen]
  have h2 : fileOutput fs f = [errorLine f e] := by
    simp [fileOutput, h1, outputOf]
  refine ⟨h1, h2, ?_⟩
  rw [h2]
  simp only [List.mem_singleton]
  intro hcontra
  have hlen := congrArg String.length hcontra
  have l1 : (" not found" : String).length = 10 := rfl
  have l2 : ("  Error reading " : String).length = 16 := rfl
  have l3 : (": " : String).length = 2 := rfl
  simp only [notFoundLine, errorLine, String.length_append, l1, l2, l3] at hlen
  omega

/-- Witness for C10 at a concrete filesystem where the last listed name is
an existing directory. -/
theorem C10_directory_takes_decode_branch_witness :
    processFile demoFs3 "scooter.webp" =
      [Event.checkExists (os_path_join base_path "scooter.webp"),
        Event.openRead (os_path_join base_path "scooter.webp"),
        Event.printLine (errorLine "scooter.webp" "Permission denied")] ∧
    fileOutput demoFs3 "scooter.webp" = [errorLine "scooter.webp" "Permission denied"] :=
  ⟨(C10_directory_takes_decode_branch demoFs3 "scooter.webp" "Permission denied" rfl).1,
    (C10_directory_takes_decode_branch demoFs3 "scooter.webp" "Permission denied" rfl).2.1⟩

end InspectImages
